import Mathlib

/-!
Verification of the trading-screener core against its specification.

The definitions below are shallow embeddings of the Python source:

* `classifySignalTypeEngine` / `classifySignalTypeProcessor` embed the two
  `_classify_signal_type` methods (`unified_strategy_engine.py` and
  `real_time_processor.py`).
* `findConfluenceSignals` embeds `UnifiedStrategyEngine._find_confluence_signals`.
* `handleNewSignal`, `processSymbolStep`, `updateSignalStatus`, `cleanupSweep`
  embed the corresponding `RealTimeSignalProcessor` methods.
* `deliverOnce` / `processAlertLoop` / `checkRateLimit` / `addAlert` embed the
  `AlertManager` delivery and rate-limiting logic.
* `calculateNextUpdate`, `handleSuccessfulTask`, `handleFailedTask` embed the
  `DataUpdateScheduler` rescheduling logic.

Machine reals (Python floats) are modelled as rationals; where NaN behaviour
matters, numeric fields are modelled as `Option ℚ` with `none` playing the
role of NaN (propagating through arithmetic and failing every comparison),
matching IEEE semantics for the operations the code performs (sum, division
by a positive count, `>=`). Timestamps are natural-number minutes or seconds,
or integers where a cutoff subtraction occurs.
-/

/-- Lowercase a character list, mirroring Python `str.lower()` on ASCII. -/
def lowerChars (s : List Char) : List Char :=
  s.map Char.toLower

/-- Embeds `startsWithKw needle hay`: `needle` is a leading segment of `hay`. -/
def startsWithKw : List Char → List Char → Bool
  | [], _ => true
  | _ :: _, [] => false
  | n :: ns, h :: hs => n == h && startsWithKw ns hs

/-- Embeds `containsKw needle hay`: Python's substring test `needle in hay`. -/
def containsKw (needle : List Char) : List Char → Bool
  | [] => startsWithKw needle []
  | h :: hs => startsWithKw needle (h :: hs) || containsKw needle hs

/-- The bullish keyword list of both `_classify_signal_type` methods. -/
def bullishKeywords : List (List Char) :=
  [('b' :: ['u', 'l', 'l']), ('b' :: ['u', 'l', 'l', 'i', 's', 'h']),
   ('l' :: ['o', 'n', 'g']), ('b' :: ['u', 'y']),
   ('s' :: ['u', 'p', 'p', 'o', 'r', 't'])]

/-- The bearish keyword list of both `_classify_signal_type` methods. -/
def bearishKeywords : List (List Char) :=
  [('b' :: ['e', 'a', 'r']), ('b' :: ['e', 'a', 'r', 'i', 's', 'h']),
   ('s' :: ['h', 'o', 'r', 't']), ('s' :: ['e', 'l', 'l']),
   ('r' :: ['e', 's', 'i', 's', 't', 'a', 'n', 'c', 'e'])]

/-- Embeds `UnifiedStrategyEngine._classify_signal_type`: lowercase the pattern type,
return `"bullish"` on the first bullish keyword contained in it, else
`"bearish"` on the first bearish keyword, else `"neutral"`. -/
def classifySignalTypeEngine (patternType : String) : String :=
  let patternLower := lowerChars patternType.data
  if bullishKeywords.any (fun kw => containsKw kw patternLower) then "bullish"
  else if bearishKeywords.any (fun kw => containsKw kw patternLower) then "bearish"
  else "neutral"

/-- Embeds `RealTimeSignalProcessor._classify_signal_type`: textually identical logic
to the engine's copy. -/
def classifySignalTypeProcessor (patternType : String) : String :=
  let patternLower := lowerChars patternType.data
  if bullishKeywords.any (fun kw => containsKw kw patternLower) then "bullish"
  else if bearishKeywords.any (fun kw => containsKw kw patternLower) then "bearish"
  else "neutral"

/-- Modelled from the spec: the fixed case-insensitive keyword table — tokens
containing "bull"/"long"/"buy"/"support" give bullish, "bear"/"short"/"sell"/
"resistance" give bearish, otherwise neutral, bullish checked first. -/
def classifySignalTypeSpecTable (patternType : String) : String :=
  let patternLower := lowerChars patternType.data
  if [('b' :: ['u', 'l', 'l']), ('l' :: ['o', 'n', 'g']), ('b' :: ['u', 'y']),
      ('s' :: ['u', 'p', 'p', 'o', 'r', 't'])].any
      (fun kw => containsKw kw patternLower) then "bullish"
  else if [('b' :: ['e', 'a', 'r']), ('s' :: ['h', 'o', 'r', 't']),
      ('s' :: ['e', 'l', 'l']),
      ('r' :: ['e', 's', 'i', 's', 't', 'a', 'n', 'c', 'e'])].any
      (fun kw => containsKw kw patternLower) then "bearish"
  else "neutral"

/-- A pattern/divergence detection as consumed by the confluence aggregator:
the fields of `DetectionResult` that `_find_confluence_signals` reads. -/
structure Detection where
  patternType : String
  timestamp : Nat
  confidence : ℚ
  entryPrice : ℚ
  stopLoss : ℚ
  takeProfit : ℚ
  deriving DecidableEq

/-- The two confluence-relevant fields of `UnifiedStrategyConfig`. -/
structure ConfluenceConfig where
  minSignalsForConfluence : Nat
  confluenceThreshold : ℚ
  deriving DecidableEq

/-- A `ConfluenceSignal` as built by `_find_confluence_signals`. -/
structure ConfluenceSig where
  timestamp : Nat
  signalType : String
  strength : ℚ
  signals : List String
  entryPrice : ℚ
  stopLoss : ℚ
  takeProfit : ℚ
  signalCount : Nat
  deriving DecidableEq

/-- Arithmetic mean of a list of rationals (`np.mean`). -/
def listMean (xs : List ℚ) : ℚ :=
  xs.sum / xs.length

/-- The `signal_map[timestamp][signal_type]` bucket: detections at `ts` whose
pattern type classifies to `dir`, in input order. -/
def bucketOf (dets : List Detection) (ts : Nat) (dir : String) : List Detection :=
  dets.filter (fun d => decide (d.timestamp = ts ∧ classifySignalTypeEngine d.patternType = dir))

/-- The distinct timestamps of the detections in first-occurrence order: the
key order of the Python dict `signal_map`. -/
def distinctTimestamps : List Detection → List Nat
  | [] => []
  | d :: ds => d.timestamp :: (distinctTimestamps ds).filter (fun t => decide (t ≠ d.timestamp))

/-- The body of the confluence emission loop for one `(timestamp, direction)`
bucket: emit a signal iff the bucket has at least `min_signals_for_confluence`
members and their average confidence reaches `confluence_threshold`; the
emitted strength is the average confidence and entry/stop/target are
unweighted means. -/
def emitFor (cfg : ConfluenceConfig) (dets : List Detection) (ts : Nat)
    (dir : String) : Option ConfluenceSig :=
  let b := bucketOf dets ts dir
  if cfg.minSignalsForConfluence ≤ b.length then
    let avgConfidence := (b.map (fun s => s.confidence)).sum / b.length
    if cfg.confluenceThreshold ≤ avgConfidence then
      some { timestamp := ts
             signalType := dir
             strength := avgConfidence
             signals := b.map (fun s => s.patternType)
             entryPrice := listMean (b.map (fun s => s.entryPrice))
             stopLoss := listMean (b.map (fun s => s.stopLoss))
             takeProfit := listMean (b.map (fun s => s.takeProfit))
             signalCount := b.length }
    else none
  else none

/-- Embeds `UnifiedStrategyEngine._find_confluence_signals`: bucket every detection of
the scan by `(timestamp, classified direction)`, then for each timestamp in
dict order and each direction in `['bullish', 'bearish']` emit at most one
`ConfluenceSignal` via `emitFor`. -/
def findConfluenceSignals (cfg : ConfluenceConfig) (dets : List Detection) :
    List ConfluenceSig :=
  ((distinctTimestamps dets).map (fun ts =>
    (["bullish", "bearish"].filterMap (emitFor cfg dets ts)))).flatten

/-- A Python float as the confluence code sees it: `none` is NaN. -/
def FP : Type := Option ℚ

instance : DecidableEq FP := by
  unfold FP
  infer_instance

/-- NaN-propagating addition. -/
def fpAdd : FP → FP → FP
  | some a, some b => some (a + b)
  | _, _ => none

/-- Python `sum` over floats: starts at 0, NaN propagates. -/
def fpSum (xs : List FP) : FP :=
  xs.foldl fpAdd (some 0)

/-- NaN-propagating division by a count. -/
def fpDivNat : FP → Nat → FP
  | some a, n => some (a / n)
  | none, _ => none

/-- Embeds `np.mean` on floats: NaN in, NaN out. -/
def fpMean (xs : List FP) : FP :=
  fpDivNat (fpSum xs) xs.length

/-- Python `x >= t` on floats: False whenever `x` is NaN. -/
def fpGe (x : FP) (t : ℚ) : Bool :=
  match x with
  | some a => decide (t ≤ a)
  | none => false

/-- A detection whose numeric fields may be NaN. -/
structure DetectionF where
  patternType : String
  timestamp : Nat
  confidence : FP
  entryPrice : FP
  stopLoss : FP
  takeProfit : FP
  deriving DecidableEq

/-- A confluence signal whose numeric fields may be NaN. -/
structure ConfluenceSigF where
  timestamp : Nat
  signalType : String
  strength : FP
  signals : List String
  entryPrice : FP
  stopLoss : FP
  takeProfit : FP
  signalCount : Nat
  deriving DecidableEq

/-- Bucket of the NaN-aware model, same classification and order. -/
def bucketOfF (dets : List DetectionF) (ts : Nat) (dir : String) : List DetectionF :=
  dets.filter (fun d => decide (d.timestamp = ts ∧ classifySignalTypeEngine d.patternType = dir))

/-- Distinct timestamps of the NaN-aware model. -/
def distinctTimestampsF : List DetectionF → List Nat
  | [] => []
  | d :: ds => d.timestamp :: (distinctTimestampsF ds).filter (fun t => decide (t ≠ d.timestamp))

/-- The emission step of `_find_confluence_signals` on floats with NaN: no
detection is ever filtered out of the bucket; the average is taken over the
whole bucket and compared with `>=`, which is False for NaN. -/
def emitForF (cfg : ConfluenceConfig) (dets : List DetectionF) (ts : Nat)
    (dir : String) : Option ConfluenceSigF :=
  let b := bucketOfF dets ts dir
  if cfg.minSignalsForConfluence ≤ b.length then
    let avgConfidence := fpDivNat (fpSum (b.map (fun s => s.confidence))) b.length
    if fpGe avgConfidence cfg.confluenceThreshold then
      some { timestamp := ts
             signalType := dir
             strength := avgConfidence
             signals := b.map (fun s => s.patternType)
             entryPrice := fpMean (b.map (fun s => s.entryPrice))
             stopLoss := fpMean (b.map (fun s => s.stopLoss))
             takeProfit := fpMean (b.map (fun s => s.takeProfit))
             signalCount := b.length }
    else none
  else none

/-- Embeds `_find_confluence_signals` on floats with NaN. -/
def findConfluenceSignalsF (cfg : ConfluenceConfig) (dets : List DetectionF) :
    List ConfluenceSigF :=
  ((distinctTimestampsF dets).map (fun ts =>
    (["bullish", "bearish"].filterMap (emitForF cfg dets ts)))).flatten

/-- Modelled from the spec: a detection all of whose numeric fields are valid
(non-NaN); the spec's claimed pre-averaging filter keeps exactly these. -/
def detectionValid (d : DetectionF) : Bool :=
  decide (d.confidence ≠ none ∧ d.entryPrice ≠ none ∧ d.stopLoss ≠ none ∧
    d.takeProfit ≠ none)

/-- Modelled from the spec: drop NaN/invalid detections before bucketing and
averaging. -/
def filterValidDetections (dets : List DetectionF) : List DetectionF :=
  dets.filter detectionValid

/-- Embeds `SignalPriority` with its Python enum values (`CRITICAL = 1` … `LOW = 4`). -/
inductive SignalPriority where
  | CRITICAL
  | HIGH
  | MEDIUM
  | LOW
  deriving DecidableEq

/-- The Python enum value of a priority. -/
def SignalPriority.val : SignalPriority → Nat
  | .CRITICAL => 1
  | .HIGH => 2
  | .MEDIUM => 3
  | .LOW => 4

/-- Embeds `SignalStatus`. -/
inductive SignalStatus where
  | PENDING
  | TRIGGERED
  | EXECUTED
  | EXPIRED
  | CANCELLED
  deriving DecidableEq

/-- A `TradingSignal`, with timestamps in whole minutes. -/
structure TradingSignal where
  id : Nat
  symbol : String
  timeframe : String
  signalType : String
  patternType : String
  priority : SignalPriority
  status : SignalStatus
  entryPrice : ℚ
  stopLoss : ℚ
  takeProfit : ℚ
  confidence : ℚ
  strength : ℚ
  contributingSignals : List String
  validUntil : Option Nat
  triggeredAt : Option Nat
  executedAt : Option Nat
  deriving DecidableEq

/-- The `ProcessorConfig` fields the lifecycle logic reads. -/
structure ProcessorConfig where
  minStrength : ℚ
  maxConcurrentSignals : Nat
  signalValidityMinutes : Nat
  criticalStrength : ℚ
  highStrength : ℚ
  mediumStrength : ℚ
  signalCooldownMinutes : Nat
  deriving DecidableEq

/-- The mutable state of `RealTimeSignalProcessor`: the active-signal dict in
insertion order, the history log, the per-key cooldown map (latest entry
first), and the next fresh id (standing in for `uuid4`). -/
structure ProcessorState where
  active : List TradingSignal
  history : List TradingSignal
  cooldown : List (String × Nat)
  nextId : Nat
  deriving DecidableEq

/-- First-match association-list lookup (Python dict read). -/
def lookupKey : List (String × Nat) → String → Option Nat
  | [], _ => none
  | (k, v) :: rest, key => if key = k then some v else lookupKey rest key

/-- The cooldown key `f"{symbol}_{timeframe}"`. -/
def cooldownKey (symbol timeframe : String) : String :=
  symbol ++ "_" ++ timeframe

/-- Embeds `RealTimeSignalProcessor._get_priority`. -/
def getPriority (cfg : ProcessorConfig) (strength : ℚ) : SignalPriority :=
  if cfg.criticalStrength ≤ strength then .CRITICAL
  else if cfg.highStrength ≤ strength then .HIGH
  else if cfg.mediumStrength ≤ strength then .MEDIUM
  else .LOW

/-- Embeds `RealTimeSignalProcessor._create_signal_from_confluence`: priority from
strength; the validity window is `signal_validity_minutes`, doubled when the
priority is CRITICAL; `valid_until = now + validity window`. -/
def createSignalFromConfluence (cfg : ProcessorConfig) (freshId : Nat)
    (symbol timeframe : String) (confluence : ConfluenceSig) (now : Nat) :
    TradingSignal :=
  let priority := getPriority cfg confluence.strength
  let validMinutes0 := cfg.signalValidityMinutes
  let validMinutes := if priority = .CRITICAL then validMinutes0 * 2 else validMinutes0
  { id := freshId
    symbol := symbol
    timeframe := timeframe
    signalType := confluence.signalType
    patternType := "Confluence"
    priority := priority
    status := .PENDING
    entryPrice := confluence.entryPrice
    stopLoss := confluence.stopLoss
    takeProfit := confluence.takeProfit
    confidence := confluence.strength
    strength := confluence.strength
    contributingSignals := confluence.signals
    validUntil := some (now + validMinutes)
    triggeredAt := none
    executedAt := none }

/-- Python `min(xs, key=...)` over lexicographic `(Nat, ℚ)` keys: the first
element attaining the minimum; `none` on the empty list (where Python's
`min([])` raises and `_handle_new_signal`'s `except` swallows it). -/
def pyMinByKey (key : TradingSignal → Nat × ℚ) : List TradingSignal →
    Option TradingSignal
  | [] => none
  | x :: xs =>
    some (xs.foldl (fun best y =>
      if (key y).1 < (key best).1 ∨
         ((key y).1 = (key best).1 ∧ (key y).2 < (key best).2) then y else best) x)

/-- Embeds `RealTimeSignalProcessor._handle_new_signal`: when the active set is at
`max_concurrent_signals`, take `min` of the active signals keyed by
`(priority.value, strength)`; if the candidate's priority value is strictly
smaller, pop that signal, mark it CANCELLED, append it to history and admit
the candidate, else return without change. On admission the candidate is
appended to the active dict and the cooldown entry for its key is set to now. -/
def handleNewSignal (cfg : ProcessorConfig) (st : ProcessorState) (now : Nat)
    (sig : TradingSignal) : ProcessorState :=
  if cfg.maxConcurrentSignals ≤ st.active.length then
    match pyMinByKey (fun s => (s.priority.val, s.strength)) st.active with
    | none => st
    | some lowest =>
      if sig.priority.val < lowest.priority.val then
        { st with
          active := (st.active.filter (fun s => decide (s.id ≠ lowest.id))) ++ [sig]
          history := st.history ++ [{ lowest with status := .CANCELLED }]
          cooldown := (cooldownKey sig.symbol sig.timeframe, now) :: st.cooldown }
      else st
  else
    { st with
      active := st.active ++ [sig]
      cooldown := (cooldownKey sig.symbol sig.timeframe, now) :: st.cooldown }

/-- Embeds `RealTimeSignalProcessor._is_in_cooldown`. -/
def isInCooldown (cfg : ProcessorConfig) (st : ProcessorState)
    (symbol timeframe : String) (now : Nat) : Bool :=
  match lookupKey st.cooldown (cooldownKey symbol timeframe) with
  | some lastSignalTime => decide (now < lastSignalTime + cfg.signalCooldownMinutes)
  | none => false

/-- Embeds `RealTimeSignalProcessor._generate_signals` on the confluence-only path:
one `TradingSignal` per confluence whose strength passes `min_strength`,
with fresh ids handed out in order. -/
def generateSignals (cfg : ProcessorConfig) (firstId : Nat)
    (symbol timeframe : String) (confluences : List ConfluenceSig) (now : Nat) :
    List TradingSignal :=
  ((confluences.filter (fun c => decide (cfg.minStrength ≤ c.strength))).enum).map
    (fun p => createSignalFromConfluence cfg (firstId + p.1) symbol timeframe p.2 now)

/-- One pass of `process_symbol` followed by `_handle_new_signal` on each
produced signal (as `_processing_loop` does): the cooldown gate runs first and
suppresses the whole scan before any signal object is constructed; otherwise
every qualifying confluence becomes a created signal and is handled in order.
Returns the updated state and the list of created `TradingSignal`s. -/
def processSymbolStep (cfg : ProcessorConfig) (st : ProcessorState)
    (symbol timeframe : String) (confluences : List ConfluenceSig) (now : Nat) :
    ProcessorState × List TradingSignal :=
  if isInCooldown cfg st symbol timeframe now then (st, [])
  else
    let sigs := generateSignals cfg st.nextId symbol timeframe confluences now
    let st1 := { st with nextId := st.nextId + sigs.length }
    (sigs.foldl (fun s sig => handleNewSignal cfg s now sig) st1, sigs)

/-- Embeds `RealTimeSignalProcessor.update_signal_status`: look the signal up in the
active dict; if present overwrite its status; TRIGGERED stamps
`triggered_at`; EXECUTED stamps `executed_at` and moves the signal from the
active dict to history; every other status leaves the signal in the active
dict. -/
def updateSignalStatus (st : ProcessorState) (signalId : Nat)
    (status : SignalStatus) (now : Nat) : ProcessorState :=
  match st.active.find? (fun s => decide (s.id = signalId)) with
  | none => st
  | some sig =>
    match status with
    | .TRIGGERED =>
      let sig2 := { sig with status := status, triggeredAt := some now }
      { st with active := st.active.map (fun s => if s.id = signalId then sig2 else s) }
    | .EXECUTED =>
      let sig2 := { sig with status := status, executedAt := some now }
      { st with
        active := st.active.filter (fun s => decide (s.id ≠ signalId))
        history := st.history ++ [sig2] }
    | _ =>
      let sig2 := { sig with status := status }
      { st with active := st.active.map (fun s => if s.id = signalId then sig2 else s) }

/-- Whether `_cleanup_loop` counts a signal as expired at `now`:
`signal.valid_until and signal.valid_until < current_time`. -/
def isExpiredAt (now : Nat) (s : TradingSignal) : Bool :=
  match s.validUntil with
  | some v => decide (v < now)
  | none => false

/-- One sweep of `RealTimeSignalProcessor._cleanup_loop`: mark every expired
active signal EXPIRED, pop each from the active dict and append it to history
in iteration order. -/
def cleanupSweep (st : ProcessorState) (now : Nat) : ProcessorState :=
  { st with
    active := st.active.filter (fun s => !isExpiredAt now s)
    history := st.history ++
      (st.active.filter (fun s => isExpiredAt now s)).map
        (fun s => { s with status := .EXPIRED }) }

/-- The `AlertConfig` fields the dispatch logic reads. -/
structure AlertConfig where
  maxAlertsPerMinute : Nat
  maxAlertsPerSymbol : Nat
  maxRetries : Nat
  retryDelay : Nat
  maxQueueSize : Nat
  deriving DecidableEq

/-- The delivery-relevant state of an `Alert`. Channels are abstracted to
naturals (standing for the notification-channel enum members). -/
structure AlertRec where
  channels : List Nat
  deliveredChannels : List Nat
  failedChannels : List Nat
  retryCount : Nat
  deriving DecidableEq

/-- One call of `AlertManager._deliver_alert`, given `outcome attempt channel`
telling whether this attempt's send on that channel succeeds. The channels
already in `delivered_channels` are skipped when building the delivery tasks,
but the results are then zipped against the FULL channel list; the alert
raises ("all delivery channels failed") iff afterwards the accumulated
`failed_channels` list is exactly as long as the channel list. Returns the
updated alert and whether it raised. -/
def deliverOnce (outcome : Nat → Nat → Bool) (attempt : Nat) (a : AlertRec) :
    AlertRec × Bool :=
  let toAttempt := a.channels.filter (fun c => !a.deliveredChannels.contains c)
  let results := toAttempt.map (fun c => outcome attempt c)
  let pairs := a.channels.zip results
  let delivered := a.deliveredChannels ++ (pairs.filter (fun p => p.2)).map (fun p => p.1)
  let failed := a.failedChannels ++ (pairs.filter (fun p => !p.2)).map (fun p => p.1)
  let a1 := { a with deliveredChannels := delivered, failedChannels := failed }
  (a1, decide (failed.length = a.channels.length))

/-- The retry loop of `AlertManager._process_batch` seen from one alert:
deliver; on a raise, increment `retry_count` and requeue while it is below
`max_retries`, else mark the alert permanently failed; on no raise count the
alert delivered. `fuel` bounds the recursion (`max_retries + 1` attempts
suffice). Returns the final alert and `some true` for counted-delivered,
`some false` for permanently failed, `none` if fuel ran out. -/
def processAlertLoop (outcome : Nat → Nat → Bool) (maxRetries : Nat) :
    Nat → Nat → AlertRec → AlertRec × Option Bool
  | 0, _, a => (a, none)
  | fuel + 1, attempt, a =>
    let r := deliverOnce outcome attempt a
    if r.2 then
      if r.1.retryCount < maxRetries then
        processAlertLoop outcome maxRetries fuel (attempt + 1)
          { r.1 with retryCount := r.1.retryCount + 1 }
      else (r.1, some false)
    else (r.1, some true)

/-- The rate-limiter state of `AlertManager`: the global timestamp deque and
the per-symbol timestamp deques (association list). Timestamps are integer
epoch seconds. -/
structure RateState where
  globalTimes : List Int
  symbolTimes : List (String × List Int)
  deriving DecidableEq

/-- First-match association-list lookup for per-symbol deques. -/
def lookupSym : List (String × List Int) → String → Option (List Int)
  | [], _ => none
  | (k, v) :: rest, key => if key = k then some v else lookupSym rest key

/-- Replace (or create) a symbol's deque. -/
def setSym (m : List (String × List Int)) (key : String) (v : List Int) :
    List (String × List Int) :=
  (key, v) :: m.filter (fun p => !decide (p.1 = key))

/-- Embeds `AlertManager._check_rate_limit`: prune global timestamps older than
`now - 60`; reject if the global deque already holds `max_alerts_per_minute`
entries; then, when the alert carries a symbol, reject if that symbol's deque
already holds `max_alerts_per_symbol` entries — the per-symbol deque is never
pruned by time — else append `now` to it; finally append `now` to the global
deque and accept. -/
def checkRateLimit (cfg : AlertConfig) (st : RateState) (now : Int)
    (symbol : Option String) : Bool × RateState :=
  let g := st.globalTimes.dropWhile (fun t => decide (t < now - 60))
  if cfg.maxAlertsPerMinute ≤ g.length then
    (false, { st with globalTimes := g })
  else
    match symbol with
    | some s =>
      let sd := (lookupSym st.symbolTimes s).getD []
      if cfg.maxAlertsPerSymbol ≤ sd.length then
        (false, { st with globalTimes := g })
      else
        (true, { globalTimes := g ++ [now],
                 symbolTimes := setSym st.symbolTimes s (sd ++ [now]) })
    | none => (true, { st with globalTimes := g ++ [now] })

/-- The queue-relevant state of `AlertManager`. -/
structure ManagerState where
  rate : RateState
  queue : List AlertRec
  deriving DecidableEq

/-- Append to the bounded alert deque (`deque(maxlen=max_queue_size)`):
the oldest entry is dropped when the queue is full. -/
def pushBoundedQueue (maxQueueSize : Nat) (q : List AlertRec) (a : AlertRec) :
    List AlertRec :=
  let q1 := q ++ [a]
  if maxQueueSize < q1.length then q1.drop (q1.length - maxQueueSize) else q1

/-- Embeds `AlertManager.add_alert`: enqueue iff `_check_rate_limit` passes; an
over-limit alert is dropped without touching the queue. -/
def addAlert (cfg : AlertConfig) (st : ManagerState) (now : Int)
    (symbol : Option String) (a : AlertRec) : ManagerState :=
  let r := checkRateLimit cfg st.rate now symbol
  if r.1 then
    { rate := r.2, queue := pushBoundedQueue cfg.maxQueueSize st.queue a }
  else
    { st with rate := r.2 }

/-- Run a list of `(now, symbol, alert)` submissions through `add_alert`. -/
def runSubmissions (cfg : AlertConfig) (st : ManagerState) :
    List (Int × Option String × AlertRec) → ManagerState
  | [] => st
  | (now, symbol, a) :: rest => runSubmissions cfg (addAlert cfg st now symbol a) rest

/-- Modelled from the spec: a per-symbol limiter that bounds events per time
window — only admissions for the symbol within the last 60 seconds count
against `max_alerts_per_symbol` (the glossary's token bucket "bounding events
per time window"). The global limiter is as in the code. -/
def checkRateLimitWindowed (cfg : AlertConfig) (st : RateState) (now : Int)
    (symbol : Option String) : Bool × RateState :=
  let g := st.globalTimes.dropWhile (fun t => decide (t < now - 60))
  if cfg.maxAlertsPerMinute ≤ g.length then
    (false, { st with globalTimes := g })
  else
    match symbol with
    | some s =>
      let sd := ((lookupSym st.symbolTimes s).getD []).filter
        (fun t => decide (now - 60 ≤ t))
      if cfg.maxAlertsPerSymbol ≤ sd.length then
        (false, { st with globalTimes := g })
      else
        (true, { globalTimes := g ++ [now],
                 symbolTimes := setSym st.symbolTimes s (sd ++ [now]) })
    | none => (true, { st with globalTimes := g ++ [now] })

/-- Modelled from the spec: `add_alert` over the windowed limiter. -/
def addAlertWindowed (cfg : AlertConfig) (st : ManagerState) (now : Int)
    (symbol : Option String) (a : AlertRec) : ManagerState :=
  let r := checkRateLimitWindowed cfg st.rate now symbol
  if r.1 then
    { rate := r.2, queue := pushBoundedQueue cfg.maxQueueSize st.queue a }
  else
    { st with rate := r.2 }

/-- Modelled from the spec: run submissions through the windowed limiter. -/
def runSubmissionsWindowed (cfg : AlertConfig) (st : ManagerState) :
    List (Int × Option String × AlertRec) → ManagerState
  | [] => st
  | (now, symbol, a) :: rest =>
    runSubmissionsWindowed cfg (addAlertWindowed cfg st now symbol a) rest

/-- Embeds `UpdateFrequency` tiers. -/
inductive UpdateFrequency where
  | REAL_TIME
  | FREQUENT
  | REGULAR
  | HOURLY
  | DAILY
  deriving DecidableEq

/-- The `UpdateConfig` fields the rescheduling logic reads. Timeframe tier
assignments are an association list defaulting to REGULAR, as
`timeframe_frequencies.get(timeframe, UpdateFrequency.REGULAR)` does. -/
structure UpdateConfig where
  timeframeFrequencies : List (String × UpdateFrequency)
  maxRetries : Nat
  retryDelay : Nat
  deriving DecidableEq

/-- Tier lookup with the REGULAR default. -/
def freqOf (cfg : UpdateConfig) (timeframe : String) : UpdateFrequency :=
  (cfg.timeframeFrequencies.find? (fun p => decide (p.1 = timeframe))).elim
    UpdateFrequency.REGULAR (fun p => p.2)

/-- An `UpdateTask`; times are epoch seconds. -/
structure UpdateTask where
  symbol : String
  timeframe : String
  lastUpdate : Option Nat
  nextUpdate : Nat
  priority : Nat
  retryCount : Nat
  deriving DecidableEq

/-- Embeds `DataUpdateScheduler._calculate_next_update`: `base = last_update or now`;
fixed offsets for the four periodic tiers; DAILY advances one day and snaps to
14:30 UTC (9:30 AM ET) of that day, `(base+86400)` truncated to its day start
plus 52200 seconds. -/
def calculateNextUpdate (now : Nat) (lastUpdate : Option Nat)
    (freq : UpdateFrequency) : Nat :=
  let base := lastUpdate.getD now
  match freq with
  | .REAL_TIME => base + 60
  | .FREQUENT => base + 300
  | .REGULAR => base + 900
  | .HOURLY => base + 3600
  | .DAILY => ((base + 86400) / 86400) * 86400 + 52200

/-- The fixed interval, in seconds, of the four periodic tiers (`none` for
DAILY, whose cadence is next session open rather than a fixed offset). -/
def tierIntervalSeconds : UpdateFrequency → Option Nat
  | .REAL_TIME => some 60
  | .FREQUENT => some 300
  | .REGULAR => some 900
  | .HOURLY => some 3600
  | .DAILY => none

/-- Embeds `DataUpdateScheduler._handle_successful_task`: stamp `last_update = now`,
reset `retry_count` and set `next_update` to the tier cadence from now. -/
def handleSuccessfulTask (cfg : UpdateConfig) (now : Nat) (task : UpdateTask) :
    UpdateTask :=
  { task with
    lastUpdate := some now
    retryCount := 0
    nextUpdate := calculateNextUpdate now (some now) (freqOf cfg task.timeframe) }

/-- Embeds `DataUpdateScheduler._handle_failed_task`: increment `retry_count`; while
it stays below `max_retries`, reschedule at `now + retry_delay * retry_count`;
otherwise reset `retry_count` to 0 and fall back to the tier cadence from
now. -/
def handleFailedTask (cfg : UpdateConfig) (now : Nat) (task : UpdateTask) :
    UpdateTask :=
  let rc := task.retryCount + 1
  if rc < cfg.maxRetries then
    { task with retryCount := rc, nextUpdate := now + cfg.retryDelay * rc }
  else
    { task with
      retryCount := 0
      nextUpdate := calculateNextUpdate now (some now) (freqOf cfg task.timeframe) }

/-- The NaN-aware emission condition of `_find_confluence_signals`: enough
bucket members, and the float comparison `avg >= threshold` returns True
(which it never does when the average is NaN). -/
def confluenceQualifiesF (cfg : ConfluenceConfig) (dets : List DetectionF)
    (ts : Nat) (dir : String) : Prop :=
  cfg.minSignalsForConfluence ≤ (bucketOfF dets ts dir).length ∧
  fpGe (fpDivNat (fpSum ((bucketOfF dets ts dir).map (fun d => d.confidence)))
    (bucketOfF dets ts dir).length) cfg.confluenceThreshold = true

instance (cfg : ConfluenceConfig) (dets : List DetectionF) (ts : Nat)
    (dir : String) : Decidable (confluenceQualifiesF cfg dets ts dir) := by
  unfold confluenceQualifiesF
  infer_instance

/-- The NaN-aware bucket aggregate. -/
def confluenceAggregateF (dets : List DetectionF) (ts : Nat) (dir : String) :
    ConfluenceSigF :=
  let b := bucketOfF dets ts dir
  { timestamp := ts
    signalType := dir
    strength := fpDivNat (fpSum (b.map (fun d => d.confidence))) b.length
    signals := b.map (fun d => d.patternType)
    entryPrice := fpMean (b.map (fun d => d.entryPrice))
    stopLoss := fpMean (b.map (fun d => d.stopLoss))
    takeProfit := fpMean (b.map (fun d => d.takeProfit))
    signalCount := b.length }

/-- The spec's emission condition for a `(timestamp, direction)` bucket:
at least `min_signals_for_confluence` members and mean confidence at least
`confluence_threshold`. -/
def confluenceQualifies (cfg : ConfluenceConfig) (dets : List Detection)
    (ts : Nat) (dir : String) : Prop :=
  cfg.minSignalsForConfluence ≤ (bucketOf dets ts dir).length ∧
  cfg.confluenceThreshold ≤ listMean ((bucketOf dets ts dir).map (fun d => d.confidence))

instance (cfg : ConfluenceConfig) (dets : List Detection) (ts : Nat)
    (dir : String) : Decidable (confluenceQualifies cfg dets ts dir) := by
  unfold confluenceQualifies
  infer_instance

/-- The spec's aggregate for a qualifying bucket: strength is the mean
confidence; entry/stop/target are the unweighted means of the bucket's
fields. -/
def confluenceAggregate (dets : List Detection)
    (ts : Nat) (dir : String) : ConfluenceSig :=
  let b := bucketOf dets ts dir
  { timestamp := ts
    signalType := dir
    strength := listMean (b.map (fun d => d.confidence))
    signals := b.map (fun d => d.patternType)
    entryPrice := listMean (b.map (fun d => d.entryPrice))
    stopLoss := listMean (b.map (fun d => d.stopLoss))
    takeProfit := listMean (b.map (fun d => d.takeProfit))
    signalCount := b.length }

/-- Fixture: a default-threshold `ProcessorConfig` with room for two active
signals. -/
def exProcCfg : ProcessorConfig :=
  { minStrength := 7/10
    maxConcurrentSignals := 2
    signalValidityMinutes := 30
    criticalStrength := 9/10
    highStrength := 8/10
    mediumStrength := 7/10
    signalCooldownMinutes := 15 }

/-- Fixture: a pending signal with the given id, priority and strength. -/
def mkSig (id : Nat) (priority : SignalPriority) (strength : ℚ) : TradingSignal :=
  { id := id
    symbol := "AAPL"
    timeframe := "1h"
    signalType := "bullish"
    patternType := "Confluence"
    priority := priority
    status := .PENDING
    entryPrice := 100
    stopLoss := 95
    takeProfit := 110
    confidence := strength
    strength := strength
    contributingSignals := []
    validUntil := some 1000
    triggeredAt := none
    executedAt := none }

theorem startsWithKw_append_left (n₁ n₂ : List Char) :
    ∀ h : List Char, startsWithKw (n₁ ++ n₂) h = true → startsWithKw n₁ h = true := by
  induction n₁ with
  | nil => intro h _; rfl
  | cons a as ih =>
    intro h hs
    cases h with
    | nil => simp [startsWithKw] at hs
    | cons b bs =>
      simp only [List.cons_append, startsWithKw, Bool.and_eq_true] at hs ⊢
      exact ⟨hs.1, ih bs hs.2⟩

theorem containsKw_append_left (n₁ n₂ : List Char) :
    ∀ h : List Char, containsKw (n₁ ++ n₂) h = true → containsKw n₁ h = true := by
  intro h
  induction h with
  | nil =>
    intro hc
    simpa [containsKw] using startsWithKw_append_left n₁ n₂ [] hc
  | cons c cs ih =>
    intro hc
    simp only [containsKw, Bool.or_eq_true] at hc ⊢
    rcases hc with hc | hc
    · exact Or.inl (startsWithKw_append_left n₁ n₂ _ hc)
    · exact Or.inr (ih hc)

theorem bullish_any_eq (pl : List Char) :
    bullishKeywords.any (fun kw => containsKw kw pl) =
      [('b' :: ['u', 'l', 'l']), ('l' :: ['o', 'n', 'g']), ('b' :: ['u', 'y']),
       ('s' :: ['u', 'p', 'p', 'o', 'r', 't'])].any (fun kw => containsKw kw pl) := by
  simp only [bullishKeywords, List.any_cons, List.any_nil, Bool.or_false]
  cases hb : containsKw ('b' :: ['u', 'l', 'l']) pl with
  | true => simp
  | false =>
    cases hbf : containsKw ('b' :: ['u', 'l', 'l', 'i', 's', 'h']) pl with
    | true =>
      have : containsKw ('b' :: ['u', 'l', 'l']) pl = true :=
        containsKw_append_left ('b' :: ['u', 'l', 'l']) ['i', 's', 'h'] pl hbf
      rw [this] at hb
      cases hb
    | false => simp

theorem bearish_any_eq (pl : List Char) :
    bearishKeywords.any (fun kw => containsKw kw pl) =
      [('b' :: ['e', 'a', 'r']), ('s' :: ['h', 'o', 'r', 't']),
       ('s' :: ['e', 'l', 'l']),
       ('r' :: ['e', 's', 'i', 's', 't', 'a', 'n', 'c', 'e'])].any
        (fun kw => containsKw kw pl) := by
  simp only [bearishKeywords, List.any_cons, List.any_nil, Bool.or_false]
  cases hb : containsKw ('b' :: ['e', 'a', 'r']) pl with
  | true => simp
  | false =>
    cases hbf : containsKw ('b' :: ['e', 'a', 'r', 'i', 's', 'h']) pl with
    | true =>
      have : containsKw ('b' :: ['e', 'a', 'r']) pl = true :=
        containsKw_append_left ('b' :: ['e', 'a', 'r']) ['i', 's', 'h'] pl hbf
      rw [this] at hb
      cases hb
    | false => simp

/-- C9: for every pattern-type string, the direction classifier of the
confluence aggregator and the one of the signal lifecycle manager agree, and
both implement the fixed case-insensitive keyword table (substrings
bull/long/buy/support give bullish, bear/short/sell/resistance give bearish,
otherwise neutral, bullish checked first); the result is always one of
bullish, bearish, neutral. -/
theorem C9_classification_agreement :
    (∀ p : String, classifySignalTypeProcessor p = classifySignalTypeEngine p) ∧
    (∀ p : String, classifySignalTypeEngine p = classifySignalTypeSpecTable p) ∧
    (∀ p : String, classifySignalTypeEngine p = "bullish" ∨
      classifySignalTypeEngine p = "bearish" ∨
      classifySignalTypeEngine p = "neutral") := by
  refine ⟨fun p => rfl, fun p => ?_, fun p => ?_⟩
  · unfold classifySignalTypeEngine classifySignalTypeSpecTable
    simp only [bullish_any_eq, bearish_any_eq]
  · unfold classifySignalTypeEngine
    by_cases h1 : bullishKeywords.any
        (fun kw => containsKw kw (lowerChars p.data)) = true
    · simp [h1]
    · by_cases h2 : bearishKeywords.any
          (fun kw => containsKw kw (lowerChars p.data)) = true
      · simp [h1, h2]
      · simp [h1, h2]

/-- C10: a `TradingSignal` created from a confluence signal has
`valid_until = creation time + signal_validity_minutes`, except that when the
computed priority is CRITICAL (exactly when strength reaches
`critical_strength`) the window is doubled:
`valid_until = creation time + 2 * signal_validity_minutes`. -/
theorem C10_critical_double_validity (cfg : ProcessorConfig) (freshId : Nat)
    (symbol timeframe : String) (confluence : ConfluenceSig) (now : Nat) :
    (getPriority cfg confluence.strength = .CRITICAL ↔
      cfg.criticalStrength ≤ confluence.strength) ∧
    (createSignalFromConfluence cfg freshId symbol timeframe confluence now).priority =
      getPriority cfg confluence.strength ∧
    (createSignalFromConfluence cfg freshId symbol timeframe confluence now).validUntil =
      some (now + (if getPriority cfg confluence.strength = .CRITICAL
        then cfg.signalValidityMinutes * 2 else cfg.signalValidityMinutes)) := by
  refine ⟨?_, rfl, rfl⟩
  unfold getPriority
  by_cases h : cfg.criticalStrength ≤ confluence.strength
  · simp [h]
  · by_cases h2 : cfg.highStrength ≤ confluence.strength
    · simp [h, h2]
    · by_cases h3 : cfg.mediumStrength ≤ confluence.strength
      · simp [h, h2, h3]
      · simp [h, h2, h3]

/-- C8: a successful fetch resets `retry_count` and sets `next_update` to the
tier cadence from completion time (completion + interval for the four
periodic tiers; DAILY's cadence is the next session open); a failed fetch
increments `retry_count` and, while it is below `max_retries`, reschedules at
`now + retry_delay * retry_count`, strictly sooner than the tier cadence
(whenever `retry_delay * max_retries ≤ 60`, as with the defaults 5 and 3);
once `max_retries` is reached, `retry_count` resets to 0 and `next_update`
reverts to the tier cadence. -/
theorem C8_retry_reschedule (cfg : UpdateConfig) (task : UpdateTask) (now : Nat)
    (hd : cfg.retryDelay * cfg.maxRetries ≤ 60) :
    ((handleSuccessfulTask cfg now task).retryCount = 0 ∧
     (handleSuccessfulTask cfg now task).nextUpdate =
       calculateNextUpdate now (some now) (freqOf cfg task.timeframe)) ∧
    (∀ freq k, tierIntervalSeconds freq = some k →
      calculateNextUpdate now (some now) freq = now + k) ∧
    (task.retryCount + 1 < cfg.maxRetries →
      (handleFailedTask cfg now task).retryCount = task.retryCount + 1 ∧
      (handleFailedTask cfg now task).nextUpdate =
        now + cfg.retryDelay * (task.retryCount + 1) ∧
      (handleFailedTask cfg now task).nextUpdate <
        calculateNextUpdate now (some now) (freqOf cfg task.timeframe)) ∧
    (cfg.maxRetries ≤ task.retryCount + 1 →
      (handleFailedTask cfg now task).retryCount = 0 ∧
      (handleFailedTask cfg now task).nextUpdate =
        calculateNextUpdate now (some now) (freqOf cfg task.timeframe)) := by
  refine ⟨⟨rfl, rfl⟩, ?_, ?_, ?_⟩
  · intro freq k hk
    cases freq <;> simp [tierIntervalSeconds] at hk <;>
      simp [calculateNextUpdate, hk]
  · intro h
    have hp : cfg.retryDelay * (task.retryCount + 1) < 60 := by
      rcases Nat.eq_zero_or_pos cfg.retryDelay with h0 | h0
      · simp [h0]
      · have h1 : task.retryCount + 1 ≤ cfg.maxRetries - 1 := by omega
        have h2 : cfg.retryDelay * (task.retryCount + 1) ≤
            cfg.retryDelay * (cfg.maxRetries - 1) := Nat.mul_le_mul_left _ h1
        have h3 : cfg.retryDelay * (cfg.maxRetries - 1) + cfg.retryDelay =
            cfg.retryDelay * cfg.maxRetries := by
          have h4 : cfg.maxRetries - 1 + 1 = cfg.maxRetries := by omega
          calc cfg.retryDelay * (cfg.maxRetries - 1) + cfg.retryDelay
              = cfg.retryDelay * (cfg.maxRetries - 1 + 1) := by
                rw [Nat.mul_succ]
            _ = cfg.retryDelay * cfg.maxRetries := by rw [h4]
        omega
    refine ⟨by simp [handleFailedTask, h], by simp [handleFailedTask, h], ?_⟩
    have he : (handleFailedTask cfg now task).nextUpdate =
        now + cfg.retryDelay * (task.retryCount + 1) := by
      simp [handleFailedTask, h]
    rw [he]
    cases freqOf cfg task.timeframe <;> simp [calculateNextUpdate] <;> omega
  · intro h
    have h2 : ¬ task.retryCount + 1 < cfg.maxRetries := by omega
    exact ⟨by simp [handleFailedTask, h2], by simp [handleFailedTask, h2]⟩

/-- Witness for C8 with the default retry settings (`max_retries = 3`,
`retry_delay = 5`) and a real-time-tier task at time 1000: success schedules
at 1060, the first failure at 1005, and failure with `retry_count = 2`
resets the count and reverts to the tier cadence. -/
theorem C8_retry_reschedule_witness :
    (handleSuccessfulTask ⟨[("1m", .REAL_TIME)], 3, 5⟩ 1000
      ⟨"A", "1m", none, 0, 1, 0⟩).retryCount = 0 ∧
    (handleSuccessfulTask ⟨[("1m", .REAL_TIME)], 3, 5⟩ 1000
      ⟨"A", "1m", none, 0, 1, 0⟩).nextUpdate = 1060 ∧
    (handleFailedTask ⟨[("1m", .REAL_TIME)], 3, 5⟩ 1000
      ⟨"A", "1m", none, 0, 1, 0⟩).nextUpdate = 1005 ∧
    (handleFailedTask ⟨[("1m", .REAL_TIME)], 3, 5⟩ 1000
      ⟨"A", "1m", none, 0, 1, 2⟩).retryCount = 0 ∧
    (handleFailedTask ⟨[("1m", .REAL_TIME)], 3, 5⟩ 1000
      ⟨"A", "1m", none, 0, 1, 2⟩).nextUpdate = 1060 := by
  have h1 := C8_retry_reschedule ⟨[("1m", .REAL_TIME)], 3, 5⟩
    ⟨"A", "1m", none, 0, 1, 0⟩ 1000 (by decide)
  have h2 := C8_retry_reschedule ⟨[("1m", .REAL_TIME)], 3, 5⟩
    ⟨"A", "1m", none, 0, 1, 2⟩ 1000 (by decide)
  refine ⟨h1.1.1, ?_, ?_, (h2.2.2.2 (by decide)).1, ?_⟩
  · rw [h1.1.2]; decide
  · rw [(h1.2.2.1 (by decide)).2.1]; decide
  · rw [(h2.2.2.2 (by decide)).2]; decide

/-- C1: evaluation of `_handle_new_signal` at a full active set holding a HIGH
(strength 0.8) and a LOW (strength 0.5) signal with a CRITICAL candidate:
the code evicts the HIGH signal — the most urgent active signal, since
`min` over `(priority.value, strength)` selects the smallest priority value —
and keeps the LOW one, while the claim requires the minimum-urgency LOW
signal to be evicted. Moreover a HIGH candidate against a full set holding a
CRITICAL and a LOW signal is rejected outright (its priority value does not
beat the minimum value 1), while the claim requires it to displace the LOW
signal. -/
theorem C1_code_eval :
    ((handleNewSignal exProcCfg
        ⟨[mkSig 1 .HIGH (4/5), mkSig 2 .LOW (1/2)], [], [], 10⟩ 100
        (mkSig 3 .CRITICAL (19/20))).active.map (fun s => s.id) = [2, 3] ∧
     (handleNewSignal exProcCfg
        ⟨[mkSig 1 .HIGH (4/5), mkSig 2 .LOW (1/2)], [], [], 10⟩ 100
        (mkSig 3 .CRITICAL (19/20))).history.map
          (fun s => (s.id, s.status)) = [(1, .CANCELLED)]) ∧
    (handleNewSignal exProcCfg
        ⟨[mkSig 1 .CRITICAL (19/20), mkSig 2 .LOW (1/2)], [], [], 10⟩ 100
        (mkSig 3 .HIGH (4/5))) =
      ⟨[mkSig 1 .CRITICAL (19/20), mkSig 2 .LOW (1/2)], [], [], 10⟩ := by
  refine ⟨⟨?_, ?_⟩, ?_⟩ <;>
    norm_num [handleNewSignal, pyMinByKey, mkSig, exProcCfg, SignalPriority.val,
      cooldownKey]

theorem map_ids_update (l : List TradingSignal) (id : Nat)
    (sig2 : TradingSignal) (h2 : sig2.id = id) :
    (l.map (fun s => if s.id = id then sig2 else s)).map (fun s => s.id) =
      l.map (fun s => s.id) := by
  induction l with
  | nil => rfl
  | cons a as ih =>
    by_cases h : a.id = id
    · simp [h, h2, ih]
    · simp [h, ih]

theorem filter_not_self_nil (p : TradingSignal → Bool) (l : List TradingSignal) :
    (l.filter (fun a => !p a)).filter (fun a => p a) = [] := by
  induction l with
  | nil => rfl
  | cons a as ih =>
    by_cases h : p a = true
    · simp [h, ih]
    · simp [Bool.eq_false_iff.2 h, ih]

theorem filter_not_idem (p : TradingSignal → Bool) (l : List TradingSignal) :
    (l.filter (fun a => !p a)).filter (fun a => !p a) =
      l.filter (fun a => !p a) := by
  induction l with
  | nil => rfl
  | cons a as ih =>
    by_cases h : p a = true
    · simp [h, ih]
    · simp [Bool.eq_false_iff.2 h, ih]

/-- C5 counterexample: a PENDING signal moved to TRIGGERED by
`update_signal_status` leaves PENDING but stays in the active set with empty
history, and likewise a CANCELLED update keeps the signal in the active set —
contradicting the claim that every departure from PENDING removes the signal
from the active set and appends it to history (and that all four non-PENDING
statuses are terminal). -/
theorem C5_counterexample :
    (updateSignalStatus ⟨[mkSig 1 .HIGH (4/5)], [], [], 2⟩ 1 .TRIGGERED 50).active =
      [{ mkSig 1 .HIGH (4/5) with status := .TRIGGERED, triggeredAt := some 50 }] ∧
    (updateSignalStatus ⟨[mkSig 1 .HIGH (4/5)], [], [], 2⟩ 1 .TRIGGERED 50).history =
      [] ∧
    (updateSignalStatus ⟨[mkSig 1 .HIGH (4/5)], [], [], 2⟩ 1 .CANCELLED 50).active =
      [{ mkSig 1 .HIGH (4/5) with status := .CANCELLED }] := by
  exact ⟨rfl, rfl, rfl⟩

/-- C5 amended: EXECUTED (via `update_signal_status`) removes the signal from
the active set and appends it to history exactly once; TRIGGERED is not
terminal — it keeps the signal in the active set (same ids) with history
untouched; `update_signal_status` with EXPIRED or CANCELLED also keeps the
signal in the active set; the cleanup sweep moves every expired signal to
history exactly once and is idempotent, so no signal is duplicated across
sweep cycles. -/
theorem C5_terminal_transitions (st : ProcessorState) (id now : Nat)
    (sig : TradingSignal)
    (hfind : st.active.find? (fun s => decide (s.id = id)) = some sig) :
    ((updateSignalStatus st id .EXECUTED now).active =
        st.active.filter (fun s => decide (s.id ≠ id)) ∧
      (updateSignalStatus st id .EXECUTED now).history =
        st.history ++ [{ sig with status := .EXECUTED, executedAt := some now }]) ∧
    ((updateSignalStatus st id .TRIGGERED now).active.map (fun s => s.id) =
        st.active.map (fun s => s.id) ∧
      (updateSignalStatus st id .TRIGGERED now).history = st.history) ∧
    (∀ t, (cleanupSweep st t).history =
        st.history ++ (st.active.filter (isExpiredAt t)).map
          (fun s => { s with status := .EXPIRED }) ∧
      (cleanupSweep st t).active.filter (isExpiredAt t) = [] ∧
      cleanupSweep (cleanupSweep st t) t = cleanupSweep st t) := by
  have hsid : sig.id = id := by
    have := List.find?_some hfind
    simpa using this
  obtain ⟨ac, hi, cd, ni⟩ := st
  refine ⟨⟨?_, ?_⟩, ⟨?_, ?_⟩, ?_⟩
  · simp only [updateSignalStatus, hfind]
  · simp only [updateSignalStatus, hfind]
  · simp only [updateSignalStatus, hfind]
    exact map_ids_update ac id _ hsid
  · simp only [updateSignalStatus, hfind]
  · intro t
    refine ⟨rfl, ?_, ?_⟩
    · exact filter_not_self_nil (isExpiredAt t) ac
    · simp only [cleanupSweep]
      rw [filter_not_self_nil (isExpiredAt t) ac, filter_not_idem (isExpiredAt t) ac]
      simp

/-- Witness for C5 at a one-signal state: EXECUTED empties the active set and
appends the executed signal to history once; TRIGGERED keeps the id in the
active set. -/
theorem C5_terminal_transitions_witness :
    (updateSignalStatus ⟨[mkSig 1 .HIGH (4/5)], [], [], 2⟩ 1 .EXECUTED 50).active =
      [] ∧
    (updateSignalStatus ⟨[mkSig 1 .HIGH (4/5)], [], [], 2⟩ 1 .EXECUTED 50).history =
      [{ mkSig 1 .HIGH (4/5) with status := .EXECUTED, executedAt := some 50 }] ∧
    (updateSignalStatus ⟨[mkSig 1 .HIGH (4/5)], [], [], 2⟩ 1 .TRIGGERED 50).active.map
      (fun s => s.id) = [1] := by
  have h := C5_terminal_transitions ⟨[mkSig 1 .HIGH (4/5)], [], [], 2⟩ 1 50
    (mkSig 1 .HIGH (4/5)) rfl
  refine ⟨?_, ?_, ?_⟩
  · rw [h.1.1]; rfl
  · rw [h.1.2]; rfl
  · rw [h.2.1.1]; rfl

/-- C4 counterexample: two candidate signals for the same (symbol, timeframe)
key arriving in the same processing pass (zero minutes apart, well within
`cooldown_minutes = 15`) both become `TradingSignal`s — the cooldown gate is
only consulted once, before the scan, so two TradingSignals are created, not
exactly one as the claim requires. -/
theorem C4_counterexample :
    ((processSymbolStep exProcCfg ⟨[], [], [], 0⟩ "AAPL" "1h"
        [⟨100, "bullish", 4/5, [], 100, 95, 110, 2⟩,
         ⟨100, "bearish", 9/10, [], 100, 105, 90, 2⟩] 50).2).length = 2 := by
  norm_num [processSymbolStep, isInCooldown, lookupKey, generateSignals,
    exProcCfg, List.enum]

/-- C4 amended: the cooldown is keyed by (symbol, timeframe) and consulted
once at the start of a processing pass, before any signal object is
constructed; its timestamp is armed when a signal is admitted to the active
set. Consequently, when a first candidate passes the strength filter and is
admitted while the key is not in cooldown, a second processing pass for the
same key within `cooldown_minutes` creates no signal at all: across the two
passes exactly one `TradingSignal` is created. -/
theorem C4_cooldown_suppression (cfg : ProcessorConfig) (st : ProcessorState)
    (symbol timeframe : String) (c1 : ConfluenceSig)
    (confluences2 : List ConfluenceSig) (t1 t2 : Nat)
    (hs1 : cfg.minStrength ≤ c1.strength)
    (hcap : st.active.length < cfg.maxConcurrentSignals)
    (hcd : isInCooldown cfg st symbol timeframe t1 = false)
    (ht : t2 < t1 + cfg.signalCooldownMinutes) :
    ((processSymbolStep cfg st symbol timeframe [c1] t1).2).length = 1 ∧
    (processSymbolStep cfg (processSymbolStep cfg st symbol timeframe [c1] t1).1
        symbol timeframe confluences2 t2).2 = [] := by
  set sigc := createSignalFromConfluence cfg st.nextId symbol timeframe c1 t1
    with hsigc
  have hgen : generateSignals cfg st.nextId symbol timeframe [c1] t1 = [sigc] := by
    simp [generateSignals, hs1, List.enum, hsigc]
  have hstep1 : processSymbolStep cfg st symbol timeframe [c1] t1 =
      (handleNewSignal cfg { st with nextId := st.nextId + 1 } t1 sigc, [sigc]) := by
    simp [processSymbolStep, hcd, hgen]
  have hadded : handleNewSignal cfg { st with nextId := st.nextId + 1 } t1 sigc =
      { active := st.active ++ [sigc]
        history := st.history
        cooldown := (cooldownKey symbol timeframe, t1) :: st.cooldown
        nextId := st.nextId + 1 } := by
    simp [handleNewSignal, Nat.not_le.2 hcap]
    rfl
  have hcd2 : isInCooldown cfg
      ({ active := st.active ++ [sigc]
         history := st.history
         cooldown := (cooldownKey symbol timeframe, t1) :: st.cooldown
         nextId := st.nextId + 1 } : ProcessorState) symbol timeframe t2 = true := by
    simp [isInCooldown, lookupKey, ht]
  refine ⟨by rw [hstep1]; rfl, ?_⟩
  rw [hstep1]
  simp only [hadded]
  simp [processSymbolStep, hcd2]

/-- Witness for C4 amended: with the default config, an empty state and two
passes for ("AAPL","1h") 10 minutes apart (cooldown 15), the first pass
creates one signal and the second creates none. -/
theorem C4_cooldown_suppression_witness :
    ((processSymbolStep exProcCfg ⟨[], [], [], 0⟩ "AAPL" "1h"
        [⟨100, "bullish", 4/5, [], 100, 95, 110, 2⟩] 0).2).length = 1 ∧
    (processSymbolStep exProcCfg
        (processSymbolStep exProcCfg ⟨[], [], [], 0⟩ "AAPL" "1h"
          [⟨100, "bullish", 4/5, [], 100, 95, 110, 2⟩] 0).1 "AAPL" "1h"
        [⟨200, "bullish", 9/10, [], 101, 96, 111, 2⟩] 10).2 = [] := by
  exact C4_cooldown_suppression exProcCfg ⟨[], [], [], 0⟩ "AAPL" "1h"
    ⟨100, "bullish", 4/5, [], 100, 95, 110, 2⟩
    [⟨200, "bullish", 9/10, [], 101, 96, 111, 2⟩] 0 10
    (by norm_num [exProcCfg]) (by norm_num [exProcCfg]) rfl
    (by norm_num [exProcCfg])

/-- C3: evaluation of the delivery logic at the claim's own scenario — a
single channel (0) that fails on attempts 1 and 2 and would succeed on
attempt 3, with `max_retries = 3`. After the second failed attempt the
accumulated `failed_channels` list has length 2, which no longer equals the
channel-list length 1, so `_deliver_alert` does not raise, `_process_batch`
counts the alert delivered, and the third attempt never happens: the alert
ends with `delivered_channels = []` (the channel appears zero times, not
once) and `failed_channels = [0, 0]`. A second conjunct shows the
`zip(alert.channels, results)` misalignment: with channels `[0, 1]` and
channel 0 already delivered, a successful send on channel 1 is recorded
against channel 0, which enters `delivered_channels` a second time while
channel 1's outcome is lost. -/
theorem C3_code_eval :
    processAlertLoop (fun attempt _ => decide (3 ≤ attempt)) 3 4 1
        ⟨[0], [], [], 0⟩ =
      (⟨[0], [], [0, 0], 1⟩, some true) ∧
    deliverOnce (fun _ _ => true) 1 ⟨[0, 1], [0], [], 0⟩ =
      (⟨[0, 1], [0, 0], [], 0⟩, false) := by
  exact ⟨rfl, rfl⟩

theorem lookupSym_filter_ne (m : List (String × List Int)) (s k : String)
    (hne : s ≠ k) :
    lookupSym (m.filter (fun p => !decide (p.1 = k))) s = lookupSym m s := by
  induction m with
  | nil => rfl
  | cons p rest ih =>
    obtain ⟨k1, v1⟩ := p
    by_cases h1 : k1 = k
    · subst h1
      simp [List.filter_cons, lookupSym, hne, ih]
    · by_cases h2 : s = k1
      · subst h2
        simp [List.filter_cons, lookupSym, h1]
      · simp [List.filter_cons, lookupSym, h1, h2, ih]

theorem lookupSym_setSym_same (m : List (String × List Int)) (k : String)
    (v : List Int) : lookupSym (setSym m k v) k = some v := by
  simp [setSym, lookupSym]

theorem lookupSym_setSym_ne (m : List (String × List Int)) (s k : String)
    (v : List Int) (hne : s ≠ k) :
    lookupSym (setSym m k v) s = lookupSym m s := by
  simp only [setSym, lookupSym, if_neg hne]
  exact lookupSym_filter_ne m s k hne

theorem checkRateLimit_symbolTimes_cases (cfg : AlertConfig) (st : RateState)
    (now : Int) (symbol : Option String) :
    (checkRateLimit cfg st now symbol).2.symbolTimes = st.symbolTimes ∨
    ∃ s0, symbol = some s0 ∧
      (checkRateLimit cfg st now symbol).2.symbolTimes =
        setSym st.symbolTimes s0
          (((lookupSym st.symbolTimes s0).getD []) ++ [now]) := by
  by_cases hg : cfg.maxAlertsPerMinute ≤
      (st.globalTimes.dropWhile (fun t => decide (t < now - 60))).length
  · left; simp [checkRateLimit, hg]
  · cases symbol with
    | none => left; simp [checkRateLimit, hg]
    | some s0 =>
      by_cases hs : cfg.maxAlertsPerSymbol ≤
          ((lookupSym st.symbolTimes s0).getD []).length
      · left; simp [checkRateLimit, hg, hs]
      · right; exact ⟨s0, rfl, by simp [checkRateLimit, hg, hs]⟩

theorem checkRateLimit_symbolTimes_mono (cfg : AlertConfig) (st : RateState)
    (now : Int) (symbol : Option String) (s : String) :
    ((lookupSym st.symbolTimes s).getD []).length ≤
      ((lookupSym (checkRateLimit cfg st now symbol).2.symbolTimes s).getD
        []).length := by
  rcases checkRateLimit_symbolTimes_cases cfg st now symbol with h | ⟨s0, _, h⟩
  · rw [h]
  · rw [h]
    by_cases he : s = s0
    · subst he
      rw [lookupSym_setSym_same]
      simp
    · rw [lookupSym_setSym_ne _ _ _ _ he]

theorem addAlert_rate_eq (cfg : AlertConfig) (st : ManagerState) (now : Int)
    (symbol : Option String) (a : AlertRec) :
    (addAlert cfg st now symbol a).rate =
      (checkRateLimit cfg st.rate now symbol).2 := by
  unfold addAlert
  by_cases h : (checkRateLimit cfg st.rate now symbol).1 = true
  · simp [h]
  · simp [h]

/-- C7 counterexample: with `max_alerts_per_symbol = 1`, an alert for symbol
"A" at time 0 is admitted; a second alert for "A" at time 100000 — with no
prior alert for that symbol anywhere near any 60-second window — is still
dropped by the code (queue stays at 1), while the spec-modelled per-time-
window limiter admits it (queue reaches 2): the per-symbol limiter does not
bound events per time window. -/
theorem C7_counterexample :
    (runSubmissions ⟨10, 1, 3, 5, 1000⟩ ⟨⟨[], []⟩, []⟩
        [(0, some "A", ⟨[0], [], [], 0⟩),
         (100000, some "A", ⟨[0], [], [], 0⟩)]).queue.length = 1 ∧
    (runSubmissionsWindowed ⟨10, 1, 3, 5, 1000⟩ ⟨⟨[], []⟩, []⟩
        [(0, some "A", ⟨[0], [], [], 0⟩),
         (100000, some "A", ⟨[0], [], [], 0⟩)]).queue.length = 2 := by
  exact ⟨rfl, rfl⟩

/-- C7 amended: an alert is enqueued iff `_check_rate_limit` passes, and a
dropped alert leaves the queue untouched (no retry, no queueing); the global
limiter is a sliding 60-second window, and 11 symbol-less submissions within
60 seconds under `max_alerts_per_minute = 10` enqueue exactly 10; but the
per-symbol limiter does not bound events per time window: its deque is never
pruned, its length never decreases across submissions, and once it holds
`max_alerts_per_symbol` entries every further alert for that symbol is
rejected regardless of elapsed time. -/
theorem C7_rate_limit_admission (cfg : AlertConfig) (st : ManagerState)
    (now : Int) (symbol : Option String) (a : AlertRec) (s : String) :
    ((checkRateLimit cfg st.rate now symbol).1 = false →
      (addAlert cfg st now symbol a).queue = st.queue) ∧
    ((checkRateLimit cfg st.rate now symbol).1 = true →
      st.queue.length < cfg.maxQueueSize →
      (addAlert cfg st now symbol a).queue = st.queue ++ [a]) ∧
    (cfg.maxAlertsPerSymbol ≤
        ((lookupSym st.rate.symbolTimes s).getD []).length →
      (checkRateLimit cfg st.rate now (some s)).1 = false) ∧
    (((lookupSym st.rate.symbolTimes s).getD []).length ≤
      ((lookupSym (addAlert cfg st now symbol a).rate.symbolTimes s).getD
        []).length) ∧
    (runSubmissions ⟨10, 5, 3, 5, 1000⟩ ⟨⟨[], []⟩, []⟩
        (List.replicate 11
          ((0 : Int), (none : Option String),
            (⟨[0], [], [], 0⟩ : AlertRec)))).queue.length = 10 := by
  refine ⟨?_, ?_, ?_, ?_, ?_⟩
  · intro h
    simp [addAlert, h]
  · intro h hlen
    have hq : ¬ (cfg.maxQueueSize < (st.queue ++ [a]).length) := by
      simp only [List.length_append, List.length_cons, List.length_nil]
      omega
    simp [addAlert, h, pushBoundedQueue, hq]
    intro hc
    exact absurd hc (by omega)
  · intro hsym
    by_cases hg : cfg.maxAlertsPerMinute ≤
        (st.rate.globalTimes.dropWhile (fun t => decide (t < now - 60))).length
    · simp [checkRateLimit, hg]
    · simp [checkRateLimit, hg, hsym]
  · rw [addAlert_rate_eq]
    exact checkRateLimit_symbolTimes_mono cfg st.rate now symbol s
  · rfl

/-- Witness for C7 amended: a full one-entry per-symbol deque for "A" rejects
an alert for "A" hours later, and the dropped alert leaves the queue
unchanged. -/
theorem C7_rate_limit_admission_witness :
    (checkRateLimit ⟨10, 1, 3, 5, 1000⟩ ⟨[], [("A", [0])]⟩ 100000
      (some "A")).1 = false ∧
    (addAlert ⟨10, 1, 3, 5, 1000⟩ ⟨⟨[], [("A", [0])]⟩, []⟩ 100000 (some "A")
      ⟨[0], [], [], 0⟩).queue = [] := by
  have h := C7_rate_limit_admission ⟨10, 1, 3, 5, 1000⟩
    ⟨⟨[], [("A", [0])]⟩, []⟩ 100000 (some "A") ⟨[0], [], [], 0⟩ "A"
  have h3 := h.2.2.1 (by decide)
  exact ⟨h3, h.1 h3⟩

theorem emitFor_characterization (cfg : ConfluenceConfig) (dets : List Detection)
    (ts : Nat) (dir : String) :
    emitFor cfg dets ts dir =
      if confluenceQualifies cfg dets ts dir
      then some (confluenceAggregate dets ts dir) else none := by
  unfold emitFor confluenceQualifies confluenceAggregate listMean
  simp only [List.length_map]
  by_cases h1 : cfg.minSignalsForConfluence ≤ (bucketOf dets ts dir).length
  · by_cases h2 : cfg.confluenceThreshold ≤
        ((bucketOf dets ts dir).map (fun d => d.confidence)).sum /
          (bucketOf dets ts dir).length
    · simp [h1, h2]
    · simp [h1, h2]
  · simp [h1]

theorem distinctTimestamps_nodup (dets : List Detection) :
    (distinctTimestamps dets).Nodup := by
  induction dets with
  | nil => exact List.nodup_nil
  | cons d ds ih =>
    simp only [distinctTimestamps, List.nodup_cons]
    constructor
    · intro hmem
      have := List.of_mem_filter hmem
      simp at this
    · exact List.Nodup.filter _ ih

theorem mem_distinctTimestamps (dets : List Detection) (t : Nat) :
    t ∈ distinctTimestamps dets ↔ t ∈ dets.map (fun d => d.timestamp) := by
  induction dets with
  | nil => simp [distinctTimestamps]
  | cons d ds ih =>
    simp only [distinctTimestamps, List.mem_cons, List.map_cons]
    by_cases he : t = d.timestamp
    · simp [he]
    · simp only [List.mem_filter, ih, decide_eq_true_eq]
      constructor
      · rintro (h | ⟨h, _⟩)
        · exact absurd h he
        · exact Or.inr h
      · rintro (h | h)
        · exact absurd h he
        · exact Or.inr ⟨h, he⟩

theorem sum_if_not_mem (ts : Nat) (f : Nat → Nat) :
    ∀ L : List Nat, ts ∉ L →
      (L.map (fun t => if t = ts then f t else 0)).sum = 0 := by
  intro L
  induction L with
  | nil => intro _; rfl
  | cons a L ih =>
    intro h
    have ha : a ≠ ts := fun he => h (he ▸ List.mem_cons_self a L)
    simp only [List.map_cons, List.sum_cons, if_neg ha]
    rw [ih (fun hm => h (List.mem_cons_of_mem a hm))]

theorem sum_if_unique (ts : Nat) (f : Nat → Nat) :
    ∀ L : List Nat, L.Nodup → ts ∈ L →
      (L.map (fun t => if t = ts then f t else 0)).sum = f ts := by
  intro L
  induction L with
  | nil => intro _ h; cases h
  | cons a L ih =>
    intro hnd hmem
    rcases List.mem_cons.1 hmem with he | hmem2
    · subst he
      simp only [List.map_cons, List.sum_cons, if_pos rfl]
      rw [sum_if_not_mem ts f L (List.nodup_cons.1 hnd).1]
      simp
    · have ha : a ≠ ts := by
        intro he
        exact (List.nodup_cons.1 hnd).1 (he ▸ hmem2)
      simp only [List.map_cons, List.sum_cons, if_neg ha]
      rw [ih (List.nodup_cons.1 hnd).2 hmem2]
      omega
theorem bucket_empty_of_not_mem (dets : List Detection) (ts : Nat) (dir : String)
    (h : ts ∉ dets.map (fun d => d.timestamp)) : bucketOf dets ts dir = [] := by
  unfold bucketOf
  rw [List.filter_eq_nil_iff]
  intro d hd
  simp only [decide_eq_true_eq, not_and]
  intro hts _
  exact h (List.mem_map.2 ⟨d, hd, hts.symm ▸ rfl⟩)

theorem component_countP (cfg : ConfluenceConfig) (dets : List Detection)
    (ts t : Nat) (dir : String) (hdir : dir = "bullish" ∨ dir = "bearish") :
    (["bullish", "bearish"].filterMap (emitFor cfg dets t)).countP
        (fun s => decide (s.timestamp = ts ∧ s.signalType = dir)) =
      if t = ts ∧ confluenceQualifies cfg dets t dir then 1 else 0 := by
  have hne1 : ("bullish" : String) ≠ "bearish" := by decide
  have hne2 : ("bearish" : String) ≠ "bullish" := by decide
  rcases hdir with rfl | rfl <;> by_cases ht : t = ts
  · subst ht
    by_cases hb : confluenceQualifies cfg dets t "bullish" <;>
      by_cases hbe : confluenceQualifies cfg dets t "bearish" <;>
      simp [List.filterMap_cons, emitFor_characterization, hb, hbe,
        confluenceAggregate, List.countP_cons, hne1, hne2]
  · by_cases hb : confluenceQualifies cfg dets t "bullish" <;>
      by_cases hbe : confluenceQualifies cfg dets t "bearish" <;>
      simp [List.filterMap_cons, emitFor_characterization, hb, hbe, ht,
        confluenceAggregate, List.countP_cons, hne1, hne2]
  · subst ht
    by_cases hb : confluenceQualifies cfg dets t "bullish" <;>
      by_cases hbe : confluenceQualifies cfg dets t "bearish" <;>
      simp [List.filterMap_cons, emitFor_characterization, hb, hbe,
        confluenceAggregate, List.countP_cons, hne1, hne2]
  · by_cases hb : confluenceQualifies cfg dets t "bullish" <;>
      by_cases hbe : confluenceQualifies cfg dets t "bearish" <;>
      simp [List.filterMap_cons, emitFor_characterization, hb, hbe, ht,
        confluenceAggregate, List.countP_cons, hne1, hne2]

/-- C2: for a scan's detections, bucketing by (exact timestamp, direction)
yields exactly one `ConfluenceSignal` per bucket iff the bucket has at least
`min_signals_for_confluence` members and its mean confidence is at least
`confluence_threshold` (stated as a count over the output for each
(timestamp, direction) with direction bullish or bearish, assuming at least
one signal is required); and every emitted signal is exactly the bucket
aggregate — its strength is the bucket's mean confidence and its
entry/stop/target are the unweighted means of the bucket's fields. -/
theorem C2_confluence_bucketing (cfg : ConfluenceConfig) (dets : List Detection)
    (hmin : 1 ≤ cfg.minSignalsForConfluence) :
    (∀ ts dir, dir = "bullish" ∨ dir = "bearish" →
      (findConfluenceSignals cfg dets).countP
          (fun s => decide (s.timestamp = ts ∧ s.signalType = dir)) =
        if confluenceQualifies cfg dets ts dir then 1 else 0) ∧
    (∀ s ∈ findConfluenceSignals cfg dets,
      s = confluenceAggregate dets s.timestamp s.signalType ∧
      s.strength = listMean ((bucketOf dets s.timestamp s.signalType).map
        (fun d => d.confidence)) ∧
      s.entryPrice = listMean ((bucketOf dets s.timestamp s.signalType).map
        (fun d => d.entryPrice)) ∧
      s.stopLoss = listMean ((bucketOf dets s.timestamp s.signalType).map
        (fun d => d.stopLoss)) ∧
      s.takeProfit = listMean ((bucketOf dets s.timestamp s.signalType).map
        (fun d => d.takeProfit))) := by
  constructor
  · intro ts dir hdir
    unfold findConfluenceSignals
    rw [List.countP_flatten, List.map_map]
    rw [List.map_congr_left (g := fun t =>
        if t = ts then (if confluenceQualifies cfg dets t dir then 1 else 0)
        else 0)
      (fun t _ => by
        show (["bullish", "bearish"].filterMap (emitFor cfg dets t)).countP _ = _
        rw [component_countP cfg dets ts t dir hdir]
        by_cases h1 : t = ts <;> by_cases h2 : confluenceQualifies cfg dets t dir <;>
          simp [h1, h2])]
    by_cases hts : ts ∈ distinctTimestamps dets
    · rw [sum_if_unique ts _ _ (distinctTimestamps_nodup dets) hts]
    · rw [sum_if_not_mem ts _ _ hts]
      have hnq : ¬ confluenceQualifies cfg dets ts dir := by
        intro hq
        have hle := hq.1
        have hbe : bucketOf dets ts dir = [] :=
          bucket_empty_of_not_mem dets ts dir
            (fun hm => hts ((mem_distinctTimestamps dets ts).2 hm))
        rw [hbe] at hle
        simp only [List.length_nil] at hle
        omega
      simp [hnq]
  · intro s hs
    unfold findConfluenceSignals at hs
    rw [List.mem_flatten] at hs
    obtain ⟨l, hl, hsl⟩ := hs
    rw [List.mem_map] at hl
    obtain ⟨t, _, rfl⟩ := hl
    rw [List.mem_filterMap] at hsl
    obtain ⟨dir, _, hemit⟩ := hsl
    rw [emitFor_characterization] at hemit
    by_cases hq : confluenceQualifies cfg dets t dir
    · rw [if_pos hq] at hemit
      have hs_eq : s = confluenceAggregate dets t dir :=
        (Option.some.inj hemit).symm
      subst hs_eq
      exact ⟨rfl, rfl, rfl, rfl, rfl⟩
    · rw [if_neg hq] at hemit
      cases hemit

/-- Witness for C2 on the spec's example: two bullish detections at the same
timestamp with confidences 0.8 and 0.9, `min_signals_for_confluence = 2`,
`confluence_threshold = 0.6`, yield exactly one `ConfluenceSignal`, whose
strength is 0.85. -/
theorem C2_confluence_bucketing_witness :
    (findConfluenceSignals ⟨2, 6/10⟩
        [⟨"bull_flag", 100, 8/10, 100, 95, 110⟩,
         ⟨"bullish_ob", 100, 9/10, 102, 97, 112⟩]).countP
        (fun s => decide (s.timestamp = 100 ∧ s.signalType = "bullish")) = 1 ∧
    (findConfluenceSignals ⟨2, 6/10⟩
        [⟨"bull_flag", 100, 8/10, 100, 95, 110⟩,
         ⟨"bullish_ob", 100, 9/10, 102, 97, 112⟩]).map
      (fun s => s.strength) = [17/20] := by
  have hbucket : bucketOf
      [⟨"bull_flag", 100, 8/10, 100, 95, 110⟩,
       ⟨"bullish_ob", 100, 9/10, 102, 97, 112⟩] 100 "bullish" =
      [⟨"bull_flag", 100, 8/10, 100, 95, 110⟩,
       ⟨"bullish_ob", 100, 9/10, 102, 97, 112⟩] := rfl
  have hq : confluenceQualifies ⟨2, 6/10⟩
      [⟨"bull_flag", 100, 8/10, 100, 95, 110⟩,
       ⟨"bullish_ob", 100, 9/10, 102, 97, 112⟩] 100 "bullish" := by
    constructor
    · rw [hbucket]
      decide
    · rw [hbucket]
      norm_num [listMean]
  have hqbear : ¬ confluenceQualifies ⟨2, 6/10⟩
      [⟨"bull_flag", 100, 8/10, 100, 95, 110⟩,
       ⟨"bullish_ob", 100, 9/10, 102, 97, 112⟩] 100 "bearish" := by
    intro hq2
    have hle := hq2.1
    have hbe : bucketOf
        [⟨"bull_flag", 100, 8/10, 100, 95, 110⟩,
         ⟨"bullish_ob", 100, 9/10, 102, 97, 112⟩] 100 "bearish" = [] := rfl
    rw [hbe] at hle
    simp at hle
  have h := C2_confluence_bucketing ⟨2, 6/10⟩
    [⟨"bull_flag", 100, 8/10, 100, 95, 110⟩,
     ⟨"bullish_ob", 100, 9/10, 102, 97, 112⟩] (by decide)
  constructor
  · rw [h.1 100 "bullish" (Or.inl rfl), if_pos hq]
  · have e1 : findConfluenceSignals ⟨2, 6/10⟩
        [⟨"bull_flag", 100, 8/10, 100, 95, 110⟩,
         ⟨"bullish_ob", 100, 9/10, 102, 97, 112⟩] =
        [confluenceAggregate
          [⟨"bull_flag", 100, 8/10, 100, 95, 110⟩,
           ⟨"bullish_ob", 100, 9/10, 102, 97, 112⟩] 100 "bullish"] := by
      unfold findConfluenceSignals
      have ht : distinctTimestamps
          [⟨"bull_flag", 100, 8/10, 100, 95, 110⟩,
           ⟨"bullish_ob", 100, 9/10, 102, 97, 112⟩] = [100] := rfl
      rw [ht]
      simp [List.filterMap_cons, emitFor_characterization, hq, hqbear]
    rw [e1]
    simp only [List.map_cons, List.map_nil, confluenceAggregate]
    rw [hbucket]
    norm_num [listMean]

theorem foldl_fpAdd_from_none (ys : List FP) : ys.foldl fpAdd none = none := by
  induction ys with
  | nil => rfl
  | cons y ys ih =>
    have h : fpAdd none y = none := by cases y <;> rfl
    simp only [List.foldl_cons, h, ih]

theorem foldl_fpAdd_ne_none (xs : List FP) :
    ∀ acc : FP, xs.foldl fpAdd acc ≠ none → ∀ x ∈ xs, x ≠ none := by
  induction xs with
  | nil =>
    intro acc _ x hx
    cases hx
  | cons y ys ih =>
    intro acc h x hx
    rcases List.mem_cons.1 hx with rfl | hx2
    · intro hy
      subst hy
      have hstep : fpAdd acc none = none := by cases acc <;> rfl
      rw [List.foldl_cons, hstep, foldl_fpAdd_from_none] at h
      exact h rfl
    · exact ih (fpAdd acc y) h x hx2

theorem fpSum_ne_none (xs : List FP) (h : fpSum xs ≠ none) :
    ∀ x ∈ xs, x ≠ none := by
  exact foldl_fpAdd_ne_none xs (some 0) h

/-- C6 amended: `_find_confluence_signals` performs no NaN filtering; instead
a NaN confidence poisons its whole bucket — every signal the code emits comes
from a bucket in which no detection has a NaN confidence (a NaN mean fails
the `>=` threshold comparison, so such buckets emit nothing even when their
valid members alone would qualify), and the emitted strength is never NaN. -/
theorem C6_nan_poisoning (cfg : ConfluenceConfig) (dets : List DetectionF)
    (s : ConfluenceSigF) (hs : s ∈ findConfluenceSignalsF cfg dets) :
    s.strength ≠ none ∧
    ∀ d ∈ bucketOfF dets s.timestamp s.signalType, d.confidence ≠ none := by
  unfold findConfluenceSignalsF at hs
  rw [List.mem_flatten] at hs
  obtain ⟨l, hl, hsl⟩ := hs
  rw [List.mem_map] at hl
  obtain ⟨t, _, rfl⟩ := hl
  rw [List.mem_filterMap] at hsl
  obtain ⟨dir, _, hemit⟩ := hsl
  simp only [emitForF] at hemit
  split_ifs at hemit with h1 h2
  · have hs_eq : s = _ := (Option.some.inj hemit).symm
    subst hs_eq
    have havg : fpDivNat (fpSum ((bucketOfF dets t dir).map
        (fun d => d.confidence))) (bucketOfF dets t dir).length ≠ none := by
      intro hnone
      rw [hnone] at h2
      simp [fpGe] at h2
    have hsum : fpSum ((bucketOfF dets t dir).map (fun d => d.confidence)) ≠
        none := by
      intro hnone
      rw [hnone] at havg
      exact havg rfl
    refine ⟨havg, ?_⟩
    intro d hd
    exact fpSum_ne_none _ hsum d.confidence (List.mem_map.2 ⟨d, hd, rfl⟩)

theorem emitForF_characterization (cfg : ConfluenceConfig)
    (dets : List DetectionF) (ts : Nat) (dir : String) :
    emitForF cfg dets ts dir =
      if confluenceQualifiesF cfg dets ts dir
      then some (confluenceAggregateF dets ts dir) else none := by
  unfold emitForF confluenceQualifiesF confluenceAggregateF
  by_cases h1 : cfg.minSignalsForConfluence ≤ (bucketOfF dets ts dir).length
  · by_cases h2 : fpGe (fpDivNat (fpSum ((bucketOfF dets ts dir).map
        (fun d => d.confidence))) (bucketOfF dets ts dir).length)
        cfg.confluenceThreshold = true
    · simp [h1, h2]
    · simp [h1, h2]
  · simp [h1]

/-- C6 counterexample: a bullish bucket of three detections at one timestamp,
two valid with confidence 0.9 and one with NaN confidence
(`min_signals_for_confluence = 2`, `confluence_threshold = 0.6`). The claim
says the NaN detection is filtered out before averaging, so one signal (mean
0.9 over the two valid members) is emitted; the code filters nothing — the
bucket mean is NaN, the threshold comparison fails, and no signal at all is
emitted. Filtering first (as the claim describes) yields one signal of
strength 0.9, so the code's behaviour differs from the claimed one. -/
theorem C6_counterexample :
    findConfluenceSignalsF ⟨2, 6/10⟩
      [⟨"bull_flag", 100, some (9/10), some 100, some 95, some 110⟩,
       ⟨"bullish_ob", 100, some (9/10), some 102, some 97, some 112⟩,
       ⟨"bull_choch", 100, none, some 101, some 96, some 111⟩] = [] ∧
    (findConfluenceSignalsF ⟨2, 6/10⟩ (filterValidDetections
      [⟨"bull_flag", 100, some (9/10), some 100, some 95, some 110⟩,
       ⟨"bullish_ob", 100, some (9/10), some 102, some 97, some 112⟩,
       ⟨"bull_choch", 100, none, some 101, some 96, some 111⟩])).map
      (fun s => s.strength) = [some (9/10)] := by
  constructor
  · rfl
  · have hfilter : filterValidDetections
        [⟨"bull_flag", 100, some (9/10), some 100, some 95, some 110⟩,
         ⟨"bullish_ob", 100, some (9/10), some 102, some 97, some 112⟩,
         ⟨"bull_choch", 100, none, some 101, some 96, some 111⟩] =
        [⟨"bull_flag", 100, some (9/10), some 100, some 95, some 110⟩,
         ⟨"bullish_ob", 100, some (9/10), some 102, some 97, some 112⟩] := rfl
    rw [hfilter]
    have hq : confluenceQualifiesF ⟨2, 6/10⟩
        [⟨"bull_flag", 100, some (9/10), some 100, some 95, some 110⟩,
         ⟨"bullish_ob", 100, some (9/10), some 102, some 97, some 112⟩]
        100 "bullish" := by
      constructor
      · decide
      · show decide ((6:ℚ)/10 ≤ (0 + 9/10 + 9/10) / ((2:Nat) : ℚ)) = true
        rw [decide_eq_true_eq]
        norm_num
    have hqbear : ¬ confluenceQualifiesF ⟨2, 6/10⟩
        [⟨"bull_flag", 100, some (9/10), some 100, some 95, some 110⟩,
         ⟨"bullish_ob", 100, some (9/10), some 102, some 97, some 112⟩]
        100 "bearish" := by
      intro h
      have := h.1
      revert this
      decide
    unfold findConfluenceSignalsF
    rw [show distinctTimestampsF
        [⟨"bull_flag", 100, some (9/10), some 100, some 95, some 110⟩,
         ⟨"bullish_ob", 100, some (9/10), some 102, some 97, some 112⟩] =
        [100] from rfl]
    simp only [List.map_cons, List.map_nil, List.filterMap_cons,
      List.filterMap_nil, emitForF_characterization, if_pos hq, if_neg hqbear,
      List.flatten]
    show [(confluenceAggregateF
      [⟨"bull_flag", 100, some (9/10), some 100, some 95, some 110⟩,
       ⟨"bullish_ob", 100, some (9/10), some 102, some 97, some 112⟩]
      100 "bullish").strength] = [some ((9:ℚ)/10)]
    show [some (((0:ℚ) + 9/10 + 9/10) / ((2:Nat) : ℚ))] = [some ((9:ℚ)/10)]
    norm_num

/-- Witness for C6 amended: the bullish bucket of two valid 0.9-confidence
detections emits its aggregate, whose strength is not NaN. -/
theorem C6_nan_poisoning_witness :
    (confluenceAggregateF
        [⟨"bull_flag", 100, some (9/10), some 100, some 95, some 110⟩,
         ⟨"bullish_ob", 100, some (9/10), some 102, some 97, some 112⟩]
        100 "bullish") ∈
      findConfluenceSignalsF ⟨2, 6/10⟩
        [⟨"bull_flag", 100, some (9/10), some 100, some 95, some 110⟩,
         ⟨"bullish_ob", 100, some (9/10), some 102, some 97, some 112⟩] ∧
    (confluenceAggregateF
        [⟨"bull_flag", 100, some (9/10), some 100, some 95, some 110⟩,
         ⟨"bullish_ob", 100, some (9/10), some 102, some 97, some 112⟩]
        100 "bullish").strength ≠ none := by
  have hq : confluenceQualifiesF ⟨2, 6/10⟩
      [⟨"bull_flag", 100, some (9/10), some 100, some 95, some 110⟩,
       ⟨"bullish_ob", 100, some (9/10), some 102, some 97, some 112⟩]
      100 "bullish" := by
    constructor
    · decide
    · show decide ((6:ℚ)/10 ≤ (0 + 9/10 + 9/10) / ((2:Nat) : ℚ)) = true
      rw [decide_eq_true_eq]
      norm_num
  have hqbear : ¬ confluenceQualifiesF ⟨2, 6/10⟩
      [⟨"bull_flag", 100, some (9/10), some 100, some 95, some 110⟩,
       ⟨"bullish_ob", 100, some (9/10), some 102, some 97, some 112⟩]
      100 "bearish" := by
    intro h
    have := h.1
    revert this
    decide
  have e1 : findConfluenceSignalsF ⟨2, 6/10⟩
      [⟨"bull_flag", 100, some (9/10), some 100, some 95, some 110⟩,
       ⟨"bullish_ob", 100, some (9/10), some 102, some 97, some 112⟩] =
      [confluenceAggregateF
        [⟨"bull_flag", 100, some (9/10), some 100, some 95, some 110⟩,
         ⟨"bullish_ob", 100, some (9/10), some 102, some 97, some 112⟩]
        100 "bullish"] := by
    unfold findConfluenceSignalsF
    rw [show distinctTimestampsF
        [⟨"bull_flag", 100, some (9/10), some 100, some 95, some 110⟩,
         ⟨"bullish_ob", 100, some (9/10), some 102, some 97, some 112⟩] =
        [100] from rfl]
    simp [List.filterMap_cons, emitForF_characterization, if_pos hq,
      if_neg hqbear]
  have hmem : (confluenceAggregateF
      [⟨"bull_flag", 100, some (9/10), some 100, some 95, some 110⟩,
       ⟨"bullish_ob", 100, some (9/10), some 102, some 97, some 112⟩]
      100 "bullish") ∈
      findConfluenceSignalsF ⟨2, 6/10⟩
        [⟨"bull_flag", 100, some (9/10), some 100, some 95, some 110⟩,
         ⟨"bullish_ob", 100, some (9/10), some 102, some 97, some 112⟩] := by
    rw [e1]
    exact List.mem_singleton.2 rfl
  exact ⟨hmem, (C6_nan_poisoning ⟨2, 6/10⟩
    [⟨"bull_flag", 100, some (9/10), some 100, some 95, some 110⟩,
     ⟨"bullish_ob", 100, some (9/10), some 102, some 97, some 112⟩]
    _ hmem).1⟩
